import Mathlib

/-!
Shallow embedding of the `gas-library-pixela` Google Apps Script library
(`src/Client.ts`, `src/Pixela.ts`, `src/Response.ts`).

The repository is a pixe.la API client: every public method builds a URL,
issues one HTTP request through the `Client_` transport and decodes the JSON
response.  We embed the request-building side as pure functions producing a
`Request` value (the exact argument of `UrlFetchApp.fetch`), and the response
side as explicit functions of the `HTTPResponse` the environment returns.

Platform primitives outside the repository are modelled by their documented
semantics:
* `UrlFetchApp.fetch(url, options)` with `muteHttpExceptions: true` returns
  the response whatever its status code; without it, a non-2xx status raises.
  We model this as `urlFetch`.
* `JSON.stringify` on the flat string-valued objects this library sends
  produces the usual `{"k":"v",...}` text (`stringifyPayload`; the library
  never sends keys or values needing escapes), and `JSON.stringify(undefined)`
  is `undefined`, i.e. no request body (`stringifyPayloadOpt`).
* `JSON.parse` succeeds exactly on bodies that are valid JSON.  A response
  body is modelled as `RespBody`: either the serialization of a JSON value
  (`jsonOf v`, on which `JSON.parse` returns `v`) or text that is not valid
  JSON (`notJson raw`, on which `JSON.parse` throws).  The TS `as
  BasicResponse` cast performs no runtime check, so the parsed value is
  returned as the dynamic JSON value `Jval`.
-/

/-- A JSON value, as returned by the platform primitive `JSON.parse`. -/
inductive Jval where
  | jnull : Jval
  | jbool (b : Bool) : Jval
  | jstr (s : String) : Jval
  | jarr (elems : List Jval) : Jval
  | jobj (fields : List (String × Jval)) : Jval

/-- Field access on a parsed JSON value (JS property read `v.field`). -/
def Jval.getField : Jval → String → Option Jval
  | .jobj fields, k => fields.lookup k
  | _, _ => none

/-- The body text of an HTTP response, classified by whether it is valid
JSON: `jsonOf v` is text whose JSON denotation is `v`, `notJson raw` is text
that is not valid JSON (e.g. raw SVG markup or a truncated body). -/
inductive RespBody where
  | jsonOf (v : Jval) : RespBody
  | notJson (raw : String) : RespBody

/-- Platform primitive `JSON.parse`: succeeds exactly on valid JSON text,
throwing a `SyntaxError` otherwise. -/
def jsonParse : RespBody → Except String Jval
  | .jsonOf v => .ok v
  | .notJson raw => .error ("SyntaxError: Unexpected token in JSON: " ++ raw)

/-- An HTTP response from the environment: status code and body text, as
observed through `getResponseCode` / `getContentText`. -/
structure HTTPResponse where
  responseCode : Nat
  body : RespBody

/-- HTTP verb of a request (`options.method`). -/
inductive HttpMethod where
  | get : HttpMethod
  | post : HttpMethod
  | put : HttpMethod
  | delete : HttpMethod
deriving DecidableEq

/-- The exact argument of `UrlFetchApp.fetch`: target URL plus the `options`
object (`method`, `headers`, optional `payload`, `muteHttpExceptions`). -/
structure Request where
  method : HttpMethod
  url : String
  headers : List (String × String)
  body : Option String
  muteHttpExceptions : Bool
deriving DecidableEq

/-- Value of a request header (assoc lookup in the `headers` object). -/
def Request.header (req : Request) (k : String) : Option String :=
  req.headers.lookup k

/-- A flat JS object with string values, in property-insertion order: the
shape of every payload this library sends. -/
abbrev Payload := List (String × String)

/-- Platform primitive `JSON.stringify` on a flat string-valued object.  The
library only sends such objects, with literal keys and caller-supplied values
(no escaping is modelled; the claims do not involve special characters). -/
def stringifyPayload (p : Payload) : String :=
  "\x7b" ++ String.intercalate ","
    (p.map (fun kv => "\"" ++ kv.1 ++ "\":\"" ++ kv.2 ++ "\"")) ++ "\x7d"

/-- `JSON.stringify` applied to a possibly-`undefined` payload:
`JSON.stringify(undefined)` is `undefined`, so no body is attached. -/
def stringifyPayloadOpt : Option Payload → Option String
  | none => none
  | some p => some (stringifyPayload p)

/-- Platform primitive `UrlFetchApp.fetch` followed by `getContentText`:
with `muteHttpExceptions` the body text is returned whatever the status
code; otherwise a non-2xx status raises. -/
def urlFetch (req : Request) (resp : HTTPResponse) : Except String RespBody :=
  if req.muteHttpExceptions then .ok resp.body
  else if 200 ≤ resp.responseCode ∧ resp.responseCode < 300 then .ok resp.body
  else .error "Exception: Request failed"

/-- `Client_` (src/Client.ts): the HTTP transport, holding the token it puts
in the `X-USER-TOKEN` header. -/
structure Client_ where
  token : String
deriving DecidableEq

/-- `Client_.get`: GET with only the auth header, no payload. -/
def Client_.get (c : Client_) (url : String) : Request :=
  { method := .get
    url := url
    headers := [("X-USER-TOKEN", c.token)]
    body := none
    muteHttpExceptions := true }

/-- `Client_.post`: POST with auth and JSON content-type headers and
`payload: JSON.stringify(payload)` (`invokeWebhook` passes `undefined`). -/
def Client_.post (c : Client_) (url : String) (payload : Option Payload) : Request :=
  { method := .post
    url := url
    headers := [("X-USER-TOKEN", c.token), ("Content-Type", "application/json")]
    body := stringifyPayloadOpt payload
    muteHttpExceptions := true }

/-- `Client_.put`: PUT with auth and JSON content-type headers and
`payload: JSON.stringify(payload)` (the payload parameter is optional). -/
def Client_.put (c : Client_) (url : String) (payload : Option Payload) : Request :=
  { method := .put
    url := url
    headers := [("X-USER-TOKEN", c.token), ("Content-Type", "application/json")]
    body := stringifyPayloadOpt payload
    muteHttpExceptions := true }

/-- `Client_.delete`: DELETE with only the auth header, no payload. -/
def Client_.delete (c : Client_) (url : String) : Request :=
  { method := .delete
    url := url
    headers := [("X-USER-TOKEN", c.token)]
    body := none
    muteHttpExceptions := true }

/-- `Pixela_` (src/Pixela.ts): instance state of the API client. -/
structure Pixela_ where
  baseURL : String
  apiVersion : String
  username : String
  token : String
  client : Client_
deriving DecidableEq

/-- `create` / the `Pixela_` constructor: field initializers set `baseURL`
and `apiVersion`; the constructor stores the credentials and builds the
transport from the token. -/
def create (username token : String) : Pixela_ :=
  { baseURL := "https://pixe.la"
    apiVersion := "v1"
    username := username
    token := token
    client := { token := token } }

/-- `Pixela_.setToken`: replaces the stored token and rebuilds the transport
with the new token. -/
def Pixela_.setToken (p : Pixela_) (token : String) : Pixela_ :=
  { p with token := token, client := { token := token } }

/-- `Utilities.formatString("%s/%s/users", baseURL, apiVersion)`. -/
def Pixela_.generateUserURL (p : Pixela_) : String :=
  p.baseURL ++ "/" ++ p.apiVersion ++ "/users"

/-- `Utilities.formatString("%s/%s/users/%s", ...)`. -/
def Pixela_.generateUserIDURL (p : Pixela_) : String :=
  p.baseURL ++ "/" ++ p.apiVersion ++ "/users/" ++ p.username

/-- `Utilities.formatString("%s/%s/users/%s/graphs", ...)`. -/
def Pixela_.generateGraphsURL (p : Pixela_) : String :=
  p.baseURL ++ "/" ++ p.apiVersion ++ "/users/" ++ p.username ++ "/graphs"

/-- `Utilities.formatString("%s/%s/users/%s/graphs/%s", ...)`. -/
def Pixela_.generateGraphIDURL (p : Pixela_) (graphID : String) : String :=
  p.baseURL ++ "/" ++ p.apiVersion ++ "/users/" ++ p.username ++ "/graphs/" ++ graphID

/-- `Utilities.formatString("%s/%s/users/%s/graphs/%s/%s", ...)`. -/
def Pixela_.generateDetailURL (p : Pixela_) (graphID detailType : String) : String :=
  p.baseURL ++ "/" ++ p.apiVersion ++ "/users/" ++ p.username ++ "/graphs/"
    ++ graphID ++ "/" ++ detailType

/-- `Utilities.formatString("%s/%s/users/%s/webhooks", ...)`. -/
def Pixela_.generateWebhookURL (p : Pixela_) : String :=
  p.baseURL ++ "/" ++ p.apiVersion ++ "/users/" ++ p.username ++ "/webhooks"

/-- `Utilities.formatString("%s/%s/users/%s/webhooks/%s", ...)`. -/
def Pixela_.generateWebhookDetailURL (p : Pixela_) (webhookHash : String) : String :=
  p.baseURL ++ "/" ++ p.apiVersion ++ "/users/" ++ p.username ++ "/webhooks/" ++ webhookHash

/-- `Pixela_.buildQuery`: keeps the parameters whose value is defined (the
source tests `parameters[key] != undefined` while iterating in declaration
order), each as `key=value`; returns the URL unchanged when none is defined,
else appends `?` and the pairs joined by `&`.  No URL-encoding is applied. -/
def Pixela_.buildQuery (url : String) (parameters : List (String × Option String)) : String :=
  let params := parameters.filterMap (fun kv => kv.2.map (fun v => kv.1 ++ "=" ++ v))
  if params.length = 0 then url
  else url ++ "?" ++ String.intercalate "&" params

/-- Shared shape of every JSON-decoding method: issue the request, then
`JSON.parse` the returned body text. -/
def runJson (req : Request) (resp : HTTPResponse) : Request × Except String Jval :=
  (req, (urlFetch req resp).bind jsonParse)

/-- `Pixela_.createUser` (post-user API): POST to the users URL with the
stored credentials and the two agreement flags. -/
def Pixela_.createUser (p : Pixela_) (agreeTermsOfService notMinor : String)
    (resp : HTTPResponse) : Request × Except String Jval :=
  let requestURL := p.generateUserURL
  let payload : Payload :=
    [("username", p.username), ("token", p.token),
     ("agreeTermsOfService", agreeTermsOfService), ("notMinor", notMinor)]
  runJson (p.client.post requestURL (some payload)) resp

/-- `Pixela_.updateUser` (put-user API). -/
def Pixela_.updateUser (p : Pixela_) (newToken : String)
    (resp : HTTPResponse) : Request × Except String Jval :=
  let requestURL := p.generateUserIDURL
  let payload : Payload := [("newToken", newToken)]
  runJson (p.client.put requestURL (some payload)) resp

/-- `Pixela_.deleteUser` (delete-user API). -/
def Pixela_.deleteUser (p : Pixela_) (resp : HTTPResponse) : Request × Except String Jval :=
  runJson (p.client.delete p.generateUserIDURL) resp

/-- Payload built by `Pixela_.createGraph`: five required properties, then
`timezone` and `selfSufficient` inserted only when the arguments are
defined (`if (x !== undefined) payload["x"] = x`). -/
def createGraphPayload (graphID graphName unit type color : String)
    (timezone selfSufficient : Option String) : Payload :=
  ([("id", graphID), ("name", graphName), ("unit", unit), ("type", type), ("color", color)]
    ++ (match timezone with | some tz => [("timezone", tz)] | none => []))
    ++ (match selfSufficient with | some ss => [("selfSufficient", ss)] | none => [])

/-- `Pixela_.createGraph` (post-graph API). -/
def Pixela_.createGraph (p : Pixela_) (graphID graphName unit type color : String)
    (timezone selfSufficient : Option String)
    (resp : HTTPResponse) : Request × Except String Jval :=
  let requestURL := p.generateGraphsURL
  let payload := createGraphPayload graphID graphName unit type color timezone selfSufficient
  runJson (p.client.post requestURL (some payload)) resp

/-- `Pixela_.getGraph` (get-graph API). -/
def Pixela_.getGraph (p : Pixela_) (resp : HTTPResponse) : Request × Except String Jval :=
  runJson (p.client.get p.generateGraphsURL) resp

/-- `Pixela_.getSvg` (get-svg API): the response body is returned verbatim,
with no JSON decoding. -/
def Pixela_.getSvg (p : Pixela_) (graphID : String) (dateStr mode : Option String)
    (resp : HTTPResponse) : Request × Except String RespBody :=
  let requestURL := Pixela_.buildQuery (p.generateGraphIDURL graphID)
    [("date", dateStr), ("mode", mode)]
  let req := p.client.get requestURL
  (req, urlFetch req resp)

/-- The allow-list of `Pixela_.updateGraph` (its `elements` array). -/
def updateGraphElements : List String :=
  ["graphName", "unit", "type", "color", "timezone", "selfSufficient"]

/-- The `updatePayload` object `Pixela_.updateGraph` builds: the entries of
the caller's payload whose key is in the allow-list, pushed in allow-list
order (`elements.forEach`, guarded by `payload[elem] !== undefined`). -/
def Pixela_.updateGraphFilteredPayload (payload : Payload) : Payload :=
  updateGraphElements.filterMap (fun elem => (payload.lookup elem).map (fun v => (elem, v)))

/-- `Pixela_.updateGraph` (put-graph API).  Note: the source builds
`updatePayload` (lines 218-232) and then passes the ORIGINAL `payload` to
`this.client.put` (line 234); the filtered object is never used. -/
def Pixela_.updateGraph (p : Pixela_) (graphID : String) (payload : Payload)
    (resp : HTTPResponse) : Request × Except String Jval :=
  let requestURL := p.generateGraphIDURL graphID
  let _updatePayload := Pixela_.updateGraphFilteredPayload payload
  runJson (p.client.put requestURL (some payload)) resp

/-- `Pixela_.deleteGraph` (delete-graph API). -/
def Pixela_.deleteGraph (p : Pixela_) (graphID : String)
    (resp : HTTPResponse) : Request × Except String Jval :=
  runJson (p.client.delete (p.generateGraphIDURL graphID)) resp

/-- `Pixela_.getGraphPixelsDate` (get-graph-pixels API). -/
def Pixela_.getGraphPixelsDate (p : Pixela_) (graphID : String)
    (fromDateStr toDateStr : Option String)
    (resp : HTTPResponse) : Request × Except String Jval :=
  let requestURL := Pixela_.buildQuery (p.generateDetailURL graphID "pixels")
    [("from", fromDateStr), ("to", toDateStr)]
  runJson (p.client.get requestURL) resp

/-- Payload built by `Pixela_.createPixel`: `date`, `quantity.toString()`,
and `optionalData` inserted as `JSON.stringify(optionalData)` only when the
argument is defined.  The JS number `quantity` is modelled as `Int`. -/
def createPixelPayload (dateStr : String) (quantity : Int)
    (optionalData : Option Payload) : Payload :=
  [("date", dateStr), ("quantity", toString quantity)]
    ++ (match optionalData with
        | some od => [("optionalData", stringifyPayload od)]
        | none => [])

/-- `Pixela_.createPixel` (post-pixel API): note the target is the graph-ID
URL, with the date carried in the payload. -/
def Pixela_.createPixel (p : Pixela_) (graphID dateStr : String) (quantity : Int)
    (optionalData : Option Payload)
    (resp : HTTPResponse) : Request × Except String Jval :=
  let requestURL := p.generateGraphIDURL graphID
  let payload := createPixelPayload dateStr quantity optionalData
  runJson (p.client.post requestURL (some payload)) resp

/-- `Pixela_.getPixel` (get-pixel API). -/
def Pixela_.getPixel (p : Pixela_) (graphID dateStr : String)
    (resp : HTTPResponse) : Request × Except String Jval :=
  runJson (p.client.get (p.generateDetailURL graphID dateStr)) resp

/-- Payload built by `Pixela_.updatePixel`. -/
def updatePixelPayload (quantity : Int) (optionalData : Option Payload) : Payload :=
  [("quantity", toString quantity)]
    ++ (match optionalData with
        | some od => [("optionalData", stringifyPayload od)]
        | none => [])

/-- `Pixela_.updatePixel` (put-pixel API). -/
def Pixela_.updatePixel (p : Pixela_) (graphID dateStr : String) (quantity : Int)
    (optionalData : Option Payload)
    (resp : HTTPResponse) : Request × Except String Jval :=
  let requestURL := p.generateDetailURL graphID dateStr
  let payload := updatePixelPayload quantity optionalData
  runJson (p.client.put requestURL (some payload)) resp

/-- `Pixela_.incPixel` (increment-pixel API): PUT with no payload argument. -/
def Pixela_.incPixel (p : Pixela_) (graphID : String)
    (resp : HTTPResponse) : Request × Except String Jval :=
  runJson (p.client.put (p.generateDetailURL graphID "increment") none) resp

/-- `Pixela_.decPixel` (decrement-pixel API): PUT with no payload argument. -/
def Pixela_.decPixel (p : Pixela_) (graphID : String)
    (resp : HTTPResponse) : Request × Except String Jval :=
  runJson (p.client.put (p.generateDetailURL graphID "decrement") none) resp

/-- `Pixela_.deletePixel` (delete-pixel API). -/
def Pixela_.deletePixel (p : Pixela_) (graphID dateStr : String)
    (resp : HTTPResponse) : Request × Except String Jval :=
  runJson (p.client.delete (p.generateDetailURL graphID dateStr)) resp

/-- `Pixela_.createWebhook` (post-webhook API). -/
def Pixela_.createWebhook (p : Pixela_) (graphID webhookType : String)
    (resp : HTTPResponse) : Request × Except String Jval :=
  let payload : Payload := [("graphID", graphID), ("type", webhookType)]
  runJson (p.client.post p.generateWebhookURL (some payload)) resp

/-- `Pixela_.getWebhook` (get-webhook API). -/
def Pixela_.getWebhook (p : Pixela_) (resp : HTTPResponse) : Request × Except String Jval :=
  runJson (p.client.get p.generateWebhookURL) resp

/-- `Pixela_.invokeWebhook` (invoke-webhook API): POST with an explicitly
`undefined` payload (`this.client.post(requestURL, undefined)`). -/
def Pixela_.invokeWebhook (p : Pixela_) (webhookHash : String)
    (resp : HTTPResponse) : Request × Except String Jval :=
  runJson (p.client.post (p.generateWebhookDetailURL webhookHash) none) resp

/-- `Pixela_.deleteWebhook` (delete-webhook API). -/
def Pixela_.deleteWebhook (p : Pixela_) (webhookHash : String)
    (resp : HTTPResponse) : Request × Except String Jval :=
  runJson (p.client.delete (p.generateWebhookDetailURL webhookHash)) resp

/-- The invariant relating the two copies of the token: the transport's
token equals the instance's stored token. -/
def tokenInvariant (p : Pixela_) : Prop :=
  p.client.token = p.token

/-- The requests issued by one call to each of the nineteen public API
methods of `Pixela_`, at generic arguments, in source order. -/
def issuedRequests (p : Pixela_)
    (a n nt g gn un ty co d wh : String) (q : Int)
    (tz ss ds md fr tod : Option String) (od : Option Payload) (pl : Payload)
    (resp : HTTPResponse) : List Request :=
  [ (p.createUser a n resp).1
  , (p.updateUser nt resp).1
  , (p.deleteUser resp).1
  , (p.createGraph g gn un ty co tz ss resp).1
  , (p.getGraph resp).1
  , (p.getSvg g ds md resp).1
  , (p.updateGraph g pl resp).1
  , (p.deleteGraph g resp).1
  , (p.getGraphPixelsDate g fr tod resp).1
  , (p.createPixel g d q od resp).1
  , (p.getPixel g d resp).1
  , (p.updatePixel g d q od resp).1
  , (p.incPixel g resp).1
  , (p.decPixel g resp).1
  , (p.deletePixel g d resp).1
  , (p.createWebhook g ty resp).1
  , (p.getWebhook resp).1
  , (p.invokeWebhook wh resp).1
  , (p.deleteWebhook wh resp).1 ]

/-- String concatenation is associative (helper for URL computations). -/
theorem strAppend_assoc (a b c : String) : a ++ b ++ c = a ++ (b ++ c) := by
  cases a with | mk da =>
  cases b with | mk db =>
  cases c with | mk dc =>
  show String.mk (da ++ db ++ dc) = String.mk (da ++ (db ++ dc))
  rw [List.append_assoc]

/-- Joining a two-element list with `&` (helper for query strings). -/
theorem intercalate_pair (x y : String) : String.intercalate "&" [x, y] = x ++ "&" ++ y := rfl

/-- Joining a one-element list with `&` (helper for query strings). -/
theorem intercalate_single (x : String) : String.intercalate "&" [x] = x := rfl

/-- Claim C1 (counter-evidence, code bug): at the input
`updateGraph("g", \x7bgraphName: "x", bogus: "y"\x7d)` the request body sent is the
JSON serialization of the ORIGINAL payload, `bogus` included, and differs from
the serialization of the allow-list-filtered payload that the source computes
into its dead `updatePayload` variable; the filtered payload would have been
`[("graphName", "x")]` exactly as the claim demands. -/
theorem updateGraph_sends_unfiltered_payload :
    ((create "u" "t").updateGraph "g" [("graphName", "x"), ("bogus", "y")]
        ⟨200, RespBody.notJson ""⟩).1.body
      = some (stringifyPayload [("graphName", "x"), ("bogus", "y")])
    ∧ Pixela_.updateGraphFilteredPayload [("graphName", "x"), ("bogus", "y")]
      = [("graphName", "x")]
    ∧ ((create "u" "t").updateGraph "g" [("graphName", "x"), ("bogus", "y")]
        ⟨200, RespBody.notJson ""⟩).1.body
      ≠ some (stringifyPayload [("graphName", "x")]) := by
  refine ⟨rfl, by decide, by decide⟩

/-- Claim C2 (counterexample): `createPixel`'s POST URL is the graph-ID URL
`https://pixe.la/v1/users/u/graphs/g`, which is not the date-suffixed URL the
claim asserts. -/
theorem createPixel_url_lacks_date_segment :
    ((create "u" "t").createPixel "g" "20210101" 5 none ⟨200, RespBody.notJson ""⟩).1.url
      = "https://pixe.la/v1/users/u/graphs/g"
    ∧ ("https://pixe.la/v1/users/u/graphs/g" : String)
        ≠ "https://pixe.la/v1/users/u/graphs/g/20210101" := by
  exact ⟨rfl, by decide⟩

/-- Claim C2 (amended): `getPixel`, `updatePixel` and `deletePixel` target
`https://pixe.la/v1/users/{username}/graphs/{graphID}/{dateStr}`, `incPixel`
and `decPixel` target the literal `increment`/`decrement` suffix, each with
the stated verb; `createPixel` instead POSTs to
`https://pixe.la/v1/users/{username}/graphs/{graphID}` with the date carried
in the request payload. -/
theorem pixel_operation_urls (u t g d : String) (q : Int) (od : Option Payload)
    (resp : HTTPResponse) :
    (((create u t).getPixel g d resp).1.url
        = "https://pixe.la/v1/users/" ++ u ++ "/graphs/" ++ g ++ "/" ++ d
      ∧ ((create u t).getPixel g d resp).1.method = HttpMethod.get)
    ∧ (((create u t).updatePixel g d q od resp).1.url
        = "https://pixe.la/v1/users/" ++ u ++ "/graphs/" ++ g ++ "/" ++ d
      ∧ ((create u t).updatePixel g d q od resp).1.method = HttpMethod.put)
    ∧ (((create u t).deletePixel g d resp).1.url
        = "https://pixe.la/v1/users/" ++ u ++ "/graphs/" ++ g ++ "/" ++ d
      ∧ ((create u t).deletePixel g d resp).1.method = HttpMethod.delete)
    ∧ (((create u t).incPixel g resp).1.url
        = "https://pixe.la/v1/users/" ++ u ++ "/graphs/" ++ g ++ "/" ++ "increment"
      ∧ ((create u t).incPixel g resp).1.method = HttpMethod.put)
    ∧ (((create u t).decPixel g resp).1.url
        = "https://pixe.la/v1/users/" ++ u ++ "/graphs/" ++ g ++ "/" ++ "decrement"
      ∧ ((create u t).decPixel g resp).1.method = HttpMethod.put)
    ∧ (((create u t).createPixel g d q od resp).1.url
        = "https://pixe.la/v1/users/" ++ u ++ "/graphs/" ++ g
      ∧ ((create u t).createPixel g d q od resp).1.method = HttpMethod.post
      ∧ (createPixelPayload d q od).lookup "date" = some d) := by
  exact ⟨⟨rfl, rfl⟩, ⟨rfl, rfl⟩, ⟨rfl, rfl⟩, ⟨rfl, rfl⟩, ⟨rfl, rfl⟩, rfl, rfl, rfl⟩

/-- Claim C3 (counterexample): the transport's `delete` request carries no
`Content-Type` header and no body at all, refuting the claim that every
mutating transport operation (post, put, delete) sends both. -/
theorem delete_request_lacks_json_content :
    (Client_.delete ⟨"t"⟩ "https://pixe.la/v1/users/u").header "Content-Type" = none
    ∧ (Client_.delete ⟨"t"⟩ "https://pixe.la/v1/users/u").body = none := by
  decide

/-- Claim C3 (amended): `post` and `put` send `Content-Type:
application/json` and a body that is the JSON serialization of the payload
(and no body when the payload is `undefined`); `delete` sends neither a
content type nor a body; all four verbs carry the current token in the
`X-USER-TOKEN` header. -/
theorem transport_headers_and_bodies (c : Client_) (url : String) (pl : Payload) :
    ((c.post url (some pl)).header "Content-Type" = some "application/json"
      ∧ (c.post url (some pl)).body = some (stringifyPayload pl)
      ∧ (c.post url none).body = none
      ∧ (c.post url (some pl)).header "X-USER-TOKEN" = some c.token)
    ∧ ((c.put url (some pl)).header "Content-Type" = some "application/json"
      ∧ (c.put url (some pl)).body = some (stringifyPayload pl)
      ∧ (c.put url none).body = none
      ∧ (c.put url (some pl)).header "X-USER-TOKEN" = some c.token)
    ∧ ((c.get url).header "X-USER-TOKEN" = some c.token
      ∧ (c.get url).header "Content-Type" = none
      ∧ (c.get url).body = none)
    ∧ ((c.delete url).header "X-USER-TOKEN" = some c.token
      ∧ (c.delete url).header "Content-Type" = none
      ∧ (c.delete url).body = none) := by
  refine ⟨⟨?_, rfl, rfl, ?_⟩, ⟨?_, rfl, rfl, ?_⟩, ⟨?_, ?_, rfl⟩, ⟨?_, ?_, rfl⟩⟩ <;>
    simp [Client_.post, Client_.put, Client_.get, Client_.delete, Request.header, List.lookup]

/-- Claim C4: after `setToken t'`, every request issued by any of the
nineteen public operations carries exactly `t'` in the `X-USER-TOKEN` header
and never the previously stored token, and the invariant that the
transport's token equals the instance's stored token holds after `create`
and is preserved by `setToken`. -/
theorem setToken_requests_carry_new_token
    (u t t' old a n nt g gn un ty co d wh : String) (q : Int)
    (tz ss ds md fr tod : Option String) (od : Option Payload) (pl : Payload)
    (resp : HTTPResponse) (h : old ≠ t') :
    tokenInvariant (create u t)
    ∧ tokenInvariant ((create u t).setToken t')
    ∧ ∀ req ∈ issuedRequests ((create u t).setToken t')
        a n nt g gn un ty co d wh q tz ss ds md fr tod od pl resp,
        req.header "X-USER-TOKEN" = some t' ∧ req.header "X-USER-TOKEN" ≠ some old := by
  refine ⟨rfl, rfl, ?_⟩
  intro req hreq
  simp only [issuedRequests, List.mem_cons, List.not_mem_nil, or_false] at hreq
  rcases hreq with rfl|rfl|rfl|rfl|rfl|rfl|rfl|rfl|rfl|rfl|rfl|rfl|rfl|rfl|rfl|rfl|rfl|rfl|rfl <;>
    exact ⟨rfl, by simp [Request.header, List.lookup]; exact h.symm⟩

/-- Witness for claim C4 at concrete credentials: after rotating the token
from `t` to `t2`, every issued request carries `t2` and never `t`. -/
theorem setToken_requests_carry_new_token_witness :
    tokenInvariant (create "u" "t")
    ∧ tokenInvariant ((create "u" "t").setToken "t2")
    ∧ ∀ req ∈ issuedRequests ((create "u" "t").setToken "t2")
        "yes" "yes" "t3" "g" "gname" "cal" "int" "shibafu" "20210101" "wh" 1
        none none none none none none none [] ⟨200, RespBody.notJson ""⟩,
        req.header "X-USER-TOKEN" = some "t2" ∧ req.header "X-USER-TOKEN" ≠ some "t" :=
  setToken_requests_carry_new_token "u" "t" "t2" "t" "yes" "yes" "t3" "g" "gname"
    "cal" "int" "shibafu" "20210101" "wh" 1 none none none none none none none []
    ⟨200, RespBody.notJson ""⟩ (by decide)

/-- Claim C5: `invokeWebhook` issues a POST request that carries no payload
body (the source passes `undefined`, and `JSON.stringify(undefined)` is
`undefined`, so no body is attached). -/
theorem invokeWebhook_no_body (p : Pixela_) (webhookHash : String) (resp : HTTPResponse) :
    (p.invokeWebhook webhookHash resp).1.body = none
    ∧ (p.invokeWebhook webhookHash resp).1.method = HttpMethod.post := by
  exact ⟨rfl, rfl⟩

/-- Claim C6: `buildQuery` returns the URL unchanged when no parameter value
is defined, and otherwise appends `?` and the `key=value` pairs of exactly
the defined parameters, joined by `&` in declaration order with no
URL-encoding (shown on `getSvg`, whose `date` precedes `mode`, and on
`getGraphPixelsDate`, whose `from` precedes `to`); the composed URL is a
pure function of its inputs. -/
theorem buildQuery_defined_params_only
    (url u t g d m : String) (resp : HTTPResponse)
    (parameters : List (String × Option String))
    (hnone : ∀ kv ∈ parameters, kv.2 = none) :
    Pixela_.buildQuery url parameters = url
    ∧ ((create u t).getSvg g (some d) (some m) resp).1.url
        = "https://pixe.la/v1/users/" ++ u ++ "/graphs/" ++ g ++ "?date=" ++ d ++ "&mode=" ++ m
    ∧ ((create u t).getSvg g none (some m) resp).1.url
        = "https://pixe.la/v1/users/" ++ u ++ "/graphs/" ++ g ++ "?mode=" ++ m
    ∧ ((create u t).getSvg g (some d) none resp).1.url
        = "https://pixe.la/v1/users/" ++ u ++ "/graphs/" ++ g ++ "?date=" ++ d
    ∧ ((create u t).getSvg g none none resp).1.url
        = "https://pixe.la/v1/users/" ++ u ++ "/graphs/" ++ g
    ∧ ((create u t).getGraphPixelsDate g (some d) (some m) resp).1.url
        = "https://pixe.la/v1/users/" ++ u ++ "/graphs/" ++ g ++ "/pixels?from=" ++ d ++ "&to=" ++ m := by
  refine ⟨?_, ?_, ?_, ?_, ?_, ?_⟩
  · unfold Pixela_.buildQuery
    have hfm : parameters.filterMap (fun kv => kv.2.map (fun v => kv.1 ++ "=" ++ v)) = [] := by
      rw [List.filterMap_eq_nil_iff]
      intro kv hkv
      rw [hnone kv hkv]
      rfl
    simp [hfm]
  all_goals
    simp only [Pixela_.getSvg, Pixela_.getGraphPixelsDate, runJson, Pixela_.buildQuery,
      Pixela_.generateGraphIDURL, Pixela_.generateDetailURL, create, Client_.get,
      List.filterMap, Option.map, intercalate_pair, intercalate_single,
      List.length, strAppend_assoc]
  all_goals rfl

/-- Witness for claim C6 at concrete inputs: an all-undefined parameter map
leaves the URL unchanged and defined parameters are appended in declaration
order. -/
theorem buildQuery_defined_params_only_witness :
    Pixela_.buildQuery "https://pixe.la/v1/users/u/graphs/g" [("date", none), ("mode", none)]
      = "https://pixe.la/v1/users/u/graphs/g"
    ∧ ((create "u" "t").getSvg "g" (some "20210101") (some "short")
        ⟨200, RespBody.notJson ""⟩).1.url
      = "https://pixe.la/v1/users/u/graphs/g?date=20210101&mode=short"
    ∧ ((create "u" "t").getSvg "g" none (some "short") ⟨200, RespBody.notJson ""⟩).1.url
      = "https://pixe.la/v1/users/u/graphs/g?mode=short"
    ∧ ((create "u" "t").getSvg "g" (some "20210101") none ⟨200, RespBody.notJson ""⟩).1.url
      = "https://pixe.la/v1/users/u/graphs/g?date=20210101"
    ∧ ((create "u" "t").getSvg "g" none none ⟨200, RespBody.notJson ""⟩).1.url
      = "https://pixe.la/v1/users/u/graphs/g"
    ∧ ((create "u" "t").getGraphPixelsDate "g" (some "20210101") (some "short")
        ⟨200, RespBody.notJson ""⟩).1.url
      = "https://pixe.la/v1/users/u/graphs/g/pixels?from=20210101&to=short" :=
  buildQuery_defined_params_only "https://pixe.la/v1/users/u/graphs/g" "u" "t" "g"
    "20210101" "short" ⟨200, RespBody.notJson ""⟩ [("date", none), ("mode", none)]
    (by decide)

/-- Claim C7: omitting `createGraph`'s `timezone` or `selfSufficient`, or
`createPixel`/`updatePixel`'s `optionalData`, yields a payload strictly
lacking that key; supplying it yields exactly one occurrence of the key
carrying the supplied value (for `optionalData`, the `JSON.stringify` of the
supplied object), and the request body is the serialization of exactly that
payload. -/
theorem optional_params_payload_keys
    (u t g gn un ty co tz ssv d : String) (q : Int) (od : Payload)
    (ss : Option String) (resp : HTTPResponse) :
    (((createGraphPayload g gn un ty co none ss).map Prod.fst).count "timezone" = 0
      ∧ ((createGraphPayload g gn un ty co (some tz) ss).map Prod.fst).count "timezone" = 1
      ∧ (createGraphPayload g gn un ty co (some tz) ss).lookup "timezone" = some tz)
    ∧ (((createGraphPayload g gn un ty co (some tz) none).map Prod.fst).count "selfSufficient" = 0
      ∧ ((createGraphPayload g gn un ty co none none).map Prod.fst).count "selfSufficient" = 0
      ∧ ((createGraphPayload g gn un ty co (some tz) (some ssv)).map Prod.fst).count "selfSufficient" = 1
      ∧ (createGraphPayload g gn un ty co (some tz) (some ssv)).lookup "selfSufficient" = some ssv)
    ∧ (((createPixelPayload d q none).map Prod.fst).count "optionalData" = 0
      ∧ ((createPixelPayload d q (some od)).map Prod.fst).count "optionalData" = 1
      ∧ (createPixelPayload d q (some od)).lookup "optionalData" = some (stringifyPayload od))
    ∧ (((updatePixelPayload q none).map Prod.fst).count "optionalData" = 0
      ∧ ((updatePixelPayload q (some od)).map Prod.fst).count "optionalData" = 1
      ∧ (updatePixelPayload q (some od)).lookup "optionalData" = some (stringifyPayload od))
    ∧ ((create u t).createGraph g gn un ty co (some tz) ss resp).1.body
        = some (stringifyPayload (createGraphPayload g gn un ty co (some tz) ss))
    ∧ ((create u t).createPixel g d q (some od) resp).1.body
        = some (stringifyPayload (createPixelPayload d q (some od)))
    ∧ ((create u t).updatePixel g d q none resp).1.body
        = some (stringifyPayload (updatePixelPayload q none)) := by
  refine ⟨⟨?_, ?_, ?_⟩, ⟨?_, ?_, ?_, ?_⟩, ⟨?_, ?_, ?_⟩, ⟨?_, ?_, ?_⟩, rfl, rfl, rfl⟩ <;>
    cases ss <;>
    simp [createGraphPayload, createPixelPayload, updatePixelPayload, List.count, List.lookup]

/-- Claim C8: each of the four transport operations hands back the response
body text whatever the status code (no transport-layer error for non-2xx),
and a response of any status whose body is the well-formed JSON error object
`\x7b"message": m, "isSuccess": false\x7d` decodes successfully into a value whose
`isSuccess` field is `false` and whose `message` field is the server's
explanation. -/
theorem transport_returns_body_any_status
    (c : Client_) (url : String) (pl : Option Payload) (resp : HTTPResponse)
    (status : Nat) (m u t g : String) :
    urlFetch (c.get url) resp = Except.ok resp.body
    ∧ urlFetch (c.post url pl) resp = Except.ok resp.body
    ∧ urlFetch (c.put url pl) resp = Except.ok resp.body
    ∧ urlFetch (c.delete url) resp = Except.ok resp.body
    ∧ ((create u t).deleteGraph g
        ⟨status, RespBody.jsonOf (Jval.jobj [("message", Jval.jstr m), ("isSuccess", Jval.jbool false)])⟩).2
      = Except.ok (Jval.jobj [("message", Jval.jstr m), ("isSuccess", Jval.jbool false)])
    ∧ (Jval.jobj [("message", Jval.jstr m), ("isSuccess", Jval.jbool false)]).getField "isSuccess"
      = some (Jval.jbool false)
    ∧ (Jval.jobj [("message", Jval.jstr m), ("isSuccess", Jval.jbool false)]).getField "message"
      = some (Jval.jstr m) := by
  refine ⟨rfl, rfl, rfl, rfl, rfl, ?_, ?_⟩ <;> simp [Jval.getField, List.lookup]

/-- Claim C9: when the response body is not valid JSON, every JSON-decoding
operation propagates the `JSON.parse` failure to the caller as an error
value rather than returning a decoded result; `getSvg`, the one operation
that does not decode, returns the malformed text verbatim. -/
theorem malformed_body_failure_propagates
    (u t a n nt g gn un ty co d wh raw : String) (q : Int)
    (tz ss ds md fr tod : Option String) (od : Option Payload) (pl : Payload)
    (status : Nat) :
    let p := create u t
    let resp : HTTPResponse := ⟨status, RespBody.notJson raw⟩
    let failure : Except String Jval :=
      Except.error ("SyntaxError: Unexpected token in JSON: " ++ raw)
    (p.createUser a n resp).2 = failure
    ∧ (p.updateUser nt resp).2 = failure
    ∧ (p.deleteUser resp).2 = failure
    ∧ (p.createGraph g gn un ty co tz ss resp).2 = failure
    ∧ (p.getGraph resp).2 = failure
    ∧ (p.updateGraph g pl resp).2 = failure
    ∧ (p.deleteGraph g resp).2 = failure
    ∧ (p.getGraphPixelsDate g fr tod resp).2 = failure
    ∧ (p.createPixel g d q od resp).2 = failure
    ∧ (p.getPixel g d resp).2 = failure
    ∧ (p.updatePixel g d q od resp).2 = failure
    ∧ (p.incPixel g resp).2 = failure
    ∧ (p.decPixel g resp).2 = failure
    ∧ (p.deletePixel g d resp).2 = failure
    ∧ (p.createWebhook g ty resp).2 = failure
    ∧ (p.getWebhook resp).2 = failure
    ∧ (p.invokeWebhook wh resp).2 = failure
    ∧ (p.deleteWebhook wh resp).2 = failure
    ∧ (p.getSvg g ds md resp).2 = Except.ok (RespBody.notJson raw) := by
  exact ⟨rfl, rfl, rfl, rfl, rfl, rfl, rfl, rfl, rfl, rfl, rfl, rfl, rfl, rfl, rfl, rfl,
    rfl, rfl, rfl⟩

/-- Claim C10: `setToken` changes only the stored token and the transport
client; `username`, `baseURL` and `apiVersion` are unchanged, so every URL
generator produces the same URL after a token rotation as before it. -/
theorem setToken_frame_condition (p : Pixela_) (t' g d wh : String) :
    (p.setToken t').username = p.username
    ∧ (p.setToken t').baseURL = p.baseURL
    ∧ (p.setToken t').apiVersion = p.apiVersion
    ∧ (p.setToken t').token = t'
    ∧ (p.setToken t').client = Client_.mk t'
    ∧ (p.setToken t').generateUserURL = p.generateUserURL
    ∧ (p.setToken t').generateUserIDURL = p.generateUserIDURL
    ∧ (p.setToken t').generateGraphsURL = p.generateGraphsURL
    ∧ (p.setToken t').generateGraphIDURL g = p.generateGraphIDURL g
    ∧ (p.setToken t').generateDetailURL g d = p.generateDetailURL g d
    ∧ (p.setToken t').generateWebhookURL = p.generateWebhookURL
    ∧ (p.setToken t').generateWebhookDetailURL wh = p.generateWebhookDetailURL wh
    ∧ Pixela_.buildQuery ((p.setToken t').generateGraphIDURL g) [("date", some d)]
        = Pixela_.buildQuery (p.generateGraphIDURL g) [("date", some d)] := by
  exact ⟨rfl, rfl, rfl, rfl, rfl, rfl, rfl, rfl, rfl, rfl, rfl, rfl, rfl⟩
